import Mathlib

/-!
Verification of the archive-member virtual file core of `invenio_previewer`
(`api.py`) and its download view (`views.py`).

The Python code is shallowly embedded:
  pure string manipulation (`os.path.basename`, `str.lower`,
  `str.endswith`) becomes structurally recursive functions on `List Char`;
  fallible construction becomes `Except`; the `ZipFileStream` object with
  its three lazily acquired resources becomes an explicit record of
  acquisition flags together with a trace of open/close events, so that
  resource-leak and double-release questions are questions about the trace.
The Python standard library `zipfile` module and the storage layer are
external collaborators: a container is modelled by the observable behaviour
the code depends on (a parseable index of named entries, or an unreadable
blob), and a member substream by the open/close events of its handle.
-/

/-- ASCII lower-casing of one character, as `str.lower` acts on the ASCII
range (the only range relevant to the `".zip"` extension check). -/
def lowerChar (c : Char) : Char :=
  if 65 ≤ c.toNat ∧ c.toNat ≤ 90 then Char.ofNat (c.toNat + 32) else c

/-- `str.lower` of Python, restricted to ASCII case mapping. -/
def lowerStr (s : String) : String := ⟨s.data.map lowerChar⟩

/-- Characters after the last `/`, accumulator-style. -/
def basenameAux : List Char → List Char → List Char
  | [], acc => acc.reverse
  | c :: cs, acc => if c = '/' then basenameAux cs [] else basenameAux cs (c :: acc)

/-- `os.path.basename` (posix): the part of the path after the last slash. -/
def basename (s : String) : String := ⟨basenameAux s.data []⟩

/-- `str.endswith`: suffix test on the character lists. -/
def strEndsWith (s post : String) : Bool := List.isSuffixOf post.data s.data

/-- The single-quote character, used in the not-found error message. -/
def squote : String := String.singleton (Char.ofNat 39)

/-- One entry of a ZIP container index: `zipfile.ZipInfo` restricted to the
fields the code reads (`filename` key, `file_size`, `compress_size`). -/
structure ZipEntry where
  path : String
  file_size : Nat
  compress_size : Nat
deriving DecidableEq, Repr

/-- Observable behaviour of a stored container object when the code opens
and parses it: either `zipfile.ZipFile` succeeds and yields an index of
entries, or opening/parsing raises some exception other than `KeyError`
(unreadable storage, corrupt archive, ...). -/
inductive Container where
  | readable (entries : List ZipEntry)
  | unreadable
deriving DecidableEq, Repr

/-- The storage object (`ObjectVersion`-like `fileobj`): its `key`, its
stored `size` metadata, and the container behaviour behind its bytes. -/
structure FileObj where
  key : String
  size : Nat
  container : Container
deriving DecidableEq, Repr

/-- The two exception kinds `create_preview_file` can raise:
`ValueError` and `FileNotFoundError`, each with its message. -/
inductive PyError where
  | valueError (msg : String)
  | fileNotFound (msg : String)
deriving DecidableEq, Repr

deriving instance DecidableEq for Except

/-- The `_file_info` dict of `ZipExtractedFile`: the success path stores
both `size` and `compressed_size`; the degraded path stores only
`{"size": 0}`, so `compressed_size` is optional. -/
structure FileInfo where
  size : Nat
  compressed_size : Option Nat
deriving DecidableEq, Repr

/-- `zipfile.ZipFile.getinfo`: exact-path lookup in the index, first match
authoritative; absence raises `KeyError`, modelled as `none`. -/
def getinfo (entries : List ZipEntry) (p : String) : Option ZipEntry :=
  entries.find? (fun e => e.path == p)

/-- `ZipExtractedFile._load_file_info` (api.py:125-141).  The `try` opens
the container and calls `getinfo`.  Python dispatches a raised `KeyError`
to the first matching handler, `except KeyError`, which raises
`FileNotFoundError`; an exception raised inside one handler is not caught
by the sibling `except Exception` handler, so the not-found error
propagates.  Every other exception of the block reaches
`except Exception`, which swallows it and stores the default
`{"size": 0}`. -/
def load_file_info (c : Container) (zip_path : String) : Except PyError FileInfo :=
  match c with
  | .unreadable => .ok ⟨0, none⟩
  | .readable entries =>
    match getinfo entries zip_path with
    | some info => .ok ⟨info.file_size, some info.compress_size⟩
    | none => .error (.fileNotFound
        ("File " ++ squote ++ zip_path ++ squote ++ " not found in ZIP archive"))

/-- `PreviewFile`: the direct virtual file, a thin wrapper of the storage
object. -/
structure PreviewFile where
  file : FileObj
deriving DecidableEq, Repr

/-- `PreviewFile.filename`: base name of the storage key. -/
def PreviewFile.filename (f : PreviewFile) : String := basename f.file.key

/-- `ZipExtractedFile`: wraps the container storage object (note
`super().__init__` passes `zip_fileobj.file`), the member path, and the
metadata loaded once at construction time. -/
structure ZipExtractedFile where
  file : FileObj
  zip_path : String
  file_info : FileInfo
deriving DecidableEq, Repr

/-- `ZipExtractedFile.__init__`: stores the fields and immediately runs
`_load_file_info`, whose exceptions propagate out of the constructor. -/
def ZipExtractedFile.make (fileobj : FileObj) (zip_path : String) :
    Except PyError ZipExtractedFile :=
  (load_file_info fileobj.container zip_path).map
    (fun info => ⟨fileobj, zip_path, info⟩)

/-- `ZipExtractedFile.size`: `self._file_info.get("size", 0)`. -/
def ZipExtractedFile.size (z : ZipExtractedFile) : Nat := z.file_info.size

/-- `ZipExtractedFile.filename`: base name of the member path, not of the
container. -/
def ZipExtractedFile.filename (z : ZipExtractedFile) : String := basename z.zip_path

/-- Result of the factory: either a direct `PreviewFile` or a
`ZipExtractedFile`. -/
inductive PreviewResult where
  | direct (f : PreviewFile)
  | extracted (z : ZipExtractedFile)
deriving DecidableEq, Repr

/-- The `filename` the views read off the factory result. -/
def PreviewResult.filename : PreviewResult → String
  | .direct f => f.filename
  | .extracted z => z.filename

/-- The `size` the views read off the factory result. -/
def PreviewResult.size : PreviewResult → Nat
  | .direct f => f.file.size
  | .extracted z => z.size

/-- `create_preview_file` (api.py:17-39).  `if zip_path:` is Python string
truthiness, so `None` and `""` both take the direct branch; a truthy path
first checks `base_file.filename.lower().endswith(".zip")` and raises
`ValueError` when it fails, otherwise constructs a `ZipExtractedFile`. -/
def create_preview_file (fileobj : FileObj) (zip_path : Option String) :
    Except PyError PreviewResult :=
  let base : PreviewFile := ⟨fileobj⟩
  match zip_path with
  | some p =>
    if p.data ≠ [] then
      if ¬ strEndsWith (lowerStr base.filename) ".zip" then
        .error (.valueError "Container file must be a ZIP archive")
      else
        (ZipExtractedFile.make fileobj p).map .extracted
    else .ok (.direct base)
  | none => .ok (.direct base)

example :
    create_preview_file ⟨"notes.txt", 7, .readable []⟩ (some "x")
      = .error (.valueError "Container file must be a ZIP archive") := by decide

example :
    create_preview_file ⟨"d/a.zip", 7, .readable [⟨"folder/image.png", 1234, 600⟩]⟩
      (some "folder/image.png")
      = .ok (.extracted ⟨⟨"d/a.zip", 7, .readable [⟨"folder/image.png", 1234, 600⟩]⟩,
          "folder/image.png", ⟨1234, some 600⟩⟩) := by decide

example :
    create_preview_file ⟨"d/a.zip", 7, .readable []⟩ (some "missing.txt")
      = .error (.fileNotFound "File 'missing.txt' not found in ZIP archive") := by decide

/-- One observable resource event of a `ZipFileStream`: the open or close of
the raw container handle (`_zip_fp`), of the `zipfile.ZipFile` index context
(`_zipfile`), or of the member substream (`_stream`). -/
inductive Event where
  | openFp
  | openZf
  | openSt
  | closeSt
  | closeZf
  | closeFp
deriving DecidableEq, Repr

/-- The sequence of resource events a run has produced so far. -/
abbrev Trace := List Event

/-- The mutable attributes of `ZipFileStream` (api.py:192-201): a flag per
resource slot records whether the slot holds an object (`None` maps to
`false`), plus the `_opened` flag.  Python `close` never resets the slots
to `None`, only `_opened`, and the model mirrors that. -/
structure ZipFileStream where
  zip_fp : Bool
  zipfile : Bool
  stream : Bool
  opened : Bool
deriving DecidableEq, Repr

/-- `ZipFileStream.__init__`: all three slots empty, not opened. -/
def ZipFileStream.init : ZipFileStream := ⟨false, false, false, false⟩

/-- Which step of the three-step open sequence the external world makes
fail, if any: `zip_fileobj.open()`, `zipfile.ZipFile(fp)`, or
`zipfile.open(path)`.  `ok` lets all three succeed. -/
inductive OpenOutcome where
  | ok
  | failFpOpen
  | failZipFileCtor
  | failMemberOpen
deriving DecidableEq, Repr

/-- `ZipFileStream._ensure_open` (api.py:203-209), returning the updated
attributes, the extended trace, and whether an exception propagated.  The
body runs only when `_opened` is false; each assignment happens only if
the right-hand side did not raise, and the function has no handler, so a
failure at a later step leaves the earlier assignments in place, emits no
close event, and leaves `_opened` false. -/
def ensure_open (env : OpenOutcome) (s : ZipFileStream) (tr : Trace) :
    ZipFileStream × Trace × Bool :=
  if s.opened then (s, tr, false)
  else
    match env with
    | .failFpOpen => (s, tr, true)
    | .failZipFileCtor =>
        ({ s with zip_fp := true }, tr ++ [.openFp], true)
    | .failMemberOpen =>
        ({ s with zip_fp := true, zipfile := true }, tr ++ [.openFp, .openZf], true)
    | .ok =>
        ({ s with zip_fp := true, zipfile := true, stream := true, opened := true },
         tr ++ [.openFp, .openZf, .openSt], false)

/-- `ZipFileStream.close` (api.py:244-253): when `_opened`, close the
substream, then the `ZipFile` context, then the raw handle, each guarded by
the truthiness of its slot, and reset only `_opened`; when not `_opened`,
do nothing at all. -/
def ZipFileStream.close (s : ZipFileStream) (tr : Trace) : ZipFileStream × Trace :=
  if s.opened then
    let tr1 := if s.stream then tr ++ [Event.closeSt] else tr
    let tr2 := if s.zipfile then tr1 ++ [Event.closeZf] else tr1
    let tr3 := if s.zip_fp then tr2 ++ [Event.closeFp] else tr2
    ({ s with opened := false }, tr3)
  else (s, tr)

/-- `ZipFileStream.read`: `_ensure_open` then forward to the substream.
The bytes returned and the `size` argument belong to the external stdlib
substream; only the resource effect is modelled. -/
def ZipFileStream.read (env : OpenOutcome) (s : ZipFileStream) (tr : Trace)
    (_size : Int) : ZipFileStream × Trace × Bool := ensure_open env s tr

/-- `ZipFileStream.readline`: `_ensure_open` then forward. -/
def ZipFileStream.readline (env : OpenOutcome) (s : ZipFileStream) (tr : Trace)
    (_size : Int) : ZipFileStream × Trace × Bool := ensure_open env s tr

/-- `ZipFileStream.readlines`: `_ensure_open` then forward. -/
def ZipFileStream.readlines (env : OpenOutcome) (s : ZipFileStream) (tr : Trace)
    (_hint : Int) : ZipFileStream × Trace × Bool := ensure_open env s tr

/-- `ZipFileStream.seek`: `_ensure_open` then forward. -/
def ZipFileStream.seek (env : OpenOutcome) (s : ZipFileStream) (tr : Trace)
    (_offset : Int) (_whence : Nat) : ZipFileStream × Trace × Bool := ensure_open env s tr

/-- `ZipFileStream.tell`: `_ensure_open` then forward. -/
def ZipFileStream.tell (env : OpenOutcome) (s : ZipFileStream) (tr : Trace) :
    ZipFileStream × Trace × Bool := ensure_open env s tr

/-- `ZipFileStream.__iter__`: `_ensure_open` then iterate the substream. -/
def ZipFileStream.iterLines (env : OpenOutcome) (s : ZipFileStream) (tr : Trace) :
    ZipFileStream × Trace × Bool := ensure_open env s tr

/-- `ZipFileStream.__enter__` (api.py:255-258): `_ensure_open`, return self. -/
def ZipFileStream.enterScope (env : OpenOutcome) (s : ZipFileStream) (tr : Trace) :
    ZipFileStream × Trace × Bool := ensure_open env s tr

/-- `ZipFileStream.__exit__` (api.py:260-263): `close`, then `return False`,
so a pending exception is never suppressed. -/
def ZipFileStream.exitScope (s : ZipFileStream) (tr : Trace) :
    ZipFileStream × Trace × Bool :=
  let c := s.close tr
  (c.1, c.2, false)

/-- Python `with stream: body`, with `ZipFileStream` as the context manager:
`__enter__` first (its exception propagates and skips both body and
`__exit__`); otherwise run the body; `__exit__` runs on the body's normal
and error exit alike, and because it returns `False` the body's error flag
is the result's error flag. -/
def withStream (env : OpenOutcome) (s : ZipFileStream) (tr : Trace)
    (body : ZipFileStream → Trace → ZipFileStream × Trace × Bool) :
    ZipFileStream × Trace × Bool :=
  let e := s.enterScope env tr
  if e.2.2 then (e.1, e.2.1, true)
  else
    let b := body e.1 e.2.1
    let x := b.1.exitScope b.2.1
    (x.1, x.2.1, b.2.2)

/-- The streaming HTTP response the download view builds for a ZIP member:
its mimetype and the two headers.  The body is the external stream. -/
structure Response where
  mimetype : String
  content_disposition : String
  content_length : String
deriving DecidableEq, Repr

/-- Outcome of `file_download_ui`: a streaming `Response`, delegation to
`invenio_records_files.utils.file_download_ui`, or `abort(code, msg)`. -/
inductive DownloadResult where
  | response (r : Response)
  | delegated
  | aborted (code : Nat) (msg : String)
deriving DecidableEq, Repr

/-- `file_download_ui` (views.py:102-176).  `mimetypes.guess_type` is the
external collaborator `guess_type`.  A missing storage object aborts 404;
a truthy `zip_path` goes through `create_preview_file` (ValueError → 400,
FileNotFoundError → 404), then builds the streaming response from the
member base name and uncompressed size; a falsy `zip_path` delegates to
the original download function. -/
def file_download_ui (guess_type : String → Option String)
    (fileobj : Option FileObj) (zip_path : Option String) : DownloadResult :=
  match fileobj with
  | none => .aborted 404 ""
  | some fo =>
    match zip_path with
    | some p =>
      if p.data ≠ [] then
        match create_preview_file fo (some p) with
        | .error (.valueError m) => .aborted 400 m
        | .error (.fileNotFound m) => .aborted 404 m
        | .ok extracted_file =>
          let mt := (guess_type extracted_file.filename).getD "application/octet-stream"
          .response ⟨mt,
            "inline; filename=\"" ++ extracted_file.filename ++ "\"",
            toString extracted_file.size⟩
      else .delegated
    | none => .delegated

/-- C1: for a non-empty member path, a storage key whose base name does not
end in ".zip" case-insensitively makes `create_preview_file` raise the
`ValueError "Container file must be a ZIP archive"` whatever the container
behaviour is — so no member lookup is performed — while a base name that
does end in ".zip" sends construction to member lookup: the result is
exactly the mapped result of `load_file_info`. -/
theorem c1_zip_extension_gate (key : String) (sz : Nat) (p : String)
    (hp : p.data ≠ []) :
    (strEndsWith (lowerStr (basename key)) ".zip" = false →
      ∀ c : Container, create_preview_file ⟨key, sz, c⟩ (some p)
        = .error (.valueError "Container file must be a ZIP archive"))
    ∧ (strEndsWith (lowerStr (basename key)) ".zip" = true →
      ∀ c : Container, create_preview_file ⟨key, sz, c⟩ (some p)
        = (load_file_info c p).map
            (fun info => .extracted ⟨⟨key, sz, c⟩, p, info⟩)) := by
  constructor
  · intro hnz c
    simp [create_preview_file, hp, PreviewFile.filename, hnz]
  · intro hz c
    cases hl : load_file_info c p with
    | ok info =>
      simp [create_preview_file, hp, PreviewFile.filename, hz,
        ZipExtractedFile.make, hl, Except.map]
    | error e =>
      simp [create_preview_file, hp, PreviewFile.filename, hz,
        ZipExtractedFile.make, hl, Except.map]

/-- Witness for C1 at the concrete inputs of the spec's scenarios: a
non-container key fails the gate, a container key proceeds to lookup. -/
theorem c1_zip_extension_gate_witness :
    create_preview_file ⟨"notes.txt", 7, Container.readable []⟩ (some "x")
      = .error (.valueError "Container file must be a ZIP archive")
    ∧ create_preview_file ⟨"d/a.zip", 7, Container.readable []⟩ (some "x")
      = (load_file_info (Container.readable []) "x").map
          (fun info => .extracted ⟨⟨"d/a.zip", 7, Container.readable []⟩, "x", info⟩) :=
  ⟨(c1_zip_extension_gate "notes.txt" 7 "x" (by decide)).1 (by decide) _,
   (c1_zip_extension_gate "d/a.zip" 7 "x" (by decide)).2 (by decide) _⟩

/-- C2: when the container index holds the exact member path, constructing
the `ZipExtractedFile` succeeds and its size is the member's uncompressed
size from the index; when the path is absent, construction fails with the
`FileNotFoundError` carrying the quoted path — the `except Exception`
fallback does not swallow it. -/
theorem c2_member_lookup (fileobj : FileObj) (entries : List ZipEntry)
    (hc : fileobj.container = .readable entries) (p q : String) (e : ZipEntry)
    (hfind : entries.find? (fun x => x.path == p) = some e)
    (hmiss : entries.find? (fun x => x.path == q) = none) :
    ZipExtractedFile.make fileobj p
      = .ok ⟨fileobj, p, ⟨e.file_size, some e.compress_size⟩⟩
    ∧ ZipExtractedFile.size ⟨fileobj, p, ⟨e.file_size, some e.compress_size⟩⟩
      = e.file_size
    ∧ ZipExtractedFile.make fileobj q
      = .error (.fileNotFound
          ("File " ++ squote ++ q ++ squote ++ " not found in ZIP archive")) := by
  refine ⟨?_, rfl, ?_⟩
  · simp [ZipExtractedFile.make, load_file_info, hc, getinfo, hfind, Except.map]
  · simp [ZipExtractedFile.make, load_file_info, hc, getinfo, hmiss, Except.map]

/-- Witness for C2 on the spec's concrete container: member
`folder/image.png` of size 1234 is found with that size, and
`folder/missing.png` raises the not-found error. -/
theorem c2_member_lookup_witness :
    ZipExtractedFile.make
        ⟨"a.zip", 9, .readable [⟨"folder/image.png", 1234, 600⟩]⟩ "folder/image.png"
      = .ok ⟨⟨"a.zip", 9, .readable [⟨"folder/image.png", 1234, 600⟩]⟩,
          "folder/image.png", ⟨1234, some 600⟩⟩
    ∧ ZipExtractedFile.size
        ⟨⟨"a.zip", 9, .readable [⟨"folder/image.png", 1234, 600⟩]⟩,
          "folder/image.png", ⟨1234, some 600⟩⟩ = 1234
    ∧ ZipExtractedFile.make
        ⟨"a.zip", 9, .readable [⟨"folder/image.png", 1234, 600⟩]⟩ "folder/missing.png"
      = .error (.fileNotFound
          ("File " ++ squote ++ "folder/missing.png" ++ squote
            ++ " not found in ZIP archive")) :=
  c2_member_lookup ⟨"a.zip", 9, .readable [⟨"folder/image.png", 1234, 600⟩]⟩
    [⟨"folder/image.png", 1234, 600⟩] rfl "folder/image.png" "folder/missing.png"
    ⟨"folder/image.png", 1234, 600⟩ (by decide) (by decide)

/-- C7: a container-index failure other than member absence does not
propagate: `_load_file_info` on the unreadable container stores the
degraded `{"size": 0}`, construction through the factory succeeds, and the
resulting virtual file reports size 0. -/
theorem c7_soft_degradation (key : String) (sz : Nat) (p : String)
    (hp : p.data ≠ [])
    (hz : strEndsWith (lowerStr (basename key)) ".zip" = true) :
    load_file_info Container.unreadable p = .ok ⟨0, none⟩
    ∧ create_preview_file ⟨key, sz, Container.unreadable⟩ (some p)
      = .ok (.extracted ⟨⟨key, sz, Container.unreadable⟩, p, ⟨0, none⟩⟩)
    ∧ PreviewResult.size
        (.extracted ⟨⟨key, sz, Container.unreadable⟩, p, ⟨0, none⟩⟩) = 0 := by
  refine ⟨rfl, ?_, rfl⟩
  simp [create_preview_file, hp, PreviewFile.filename, hz, ZipExtractedFile.make,
    load_file_info, Except.map]

/-- Witness for C7: a corrupt `broken.zip` container with member path
`folder/image.png` still constructs, with size 0. -/
theorem c7_soft_degradation_witness :
    load_file_info Container.unreadable "folder/image.png" = .ok ⟨0, none⟩
    ∧ create_preview_file ⟨"broken.zip", 3, Container.unreadable⟩
        (some "folder/image.png")
      = .ok (.extracted ⟨⟨"broken.zip", 3, Container.unreadable⟩,
          "folder/image.png", ⟨0, none⟩⟩)
    ∧ PreviewResult.size (.extracted ⟨⟨"broken.zip", 3, Container.unreadable⟩,
        "folder/image.png", ⟨0, none⟩⟩) = 0 :=
  c7_soft_degradation "broken.zip" 3 "folder/image.png" (by decide) (by decide)

/-- C10: the empty member path is falsy in `if zip_path:`, so it is treated
exactly like an absent one: the factory returns the direct `PreviewFile`
for the container itself, with no ZIP-extension validation and no member
lookup, for every storage object. -/
theorem c10_empty_zip_path_is_absent (fileobj : FileObj) :
    create_preview_file fileobj (some "") = .ok (.direct ⟨fileobj⟩)
    ∧ create_preview_file fileobj (some "") = create_preview_file fileobj none :=
  ⟨rfl, rfl⟩

/-- Helper: the open trigger with all steps succeeding never raises and
always leaves the reader open. -/
theorem ensure_open_ok (s : ZipFileStream) (tr : Trace) :
    (ensure_open .ok s tr).1.opened = true ∧ (ensure_open .ok s tr).2.2 = false := by
  rcases s with ⟨a, b, c, d⟩
  cases d <;> exact ⟨rfl, rfl⟩

/-- Helper: after `close` the `_opened` flag is always false. -/
theorem close_not_opened (s : ZipFileStream) (tr : Trace) :
    ((ZipFileStream.close s tr).1).opened = false := by
  rcases s with ⟨a, b, c, d⟩
  cases d <;> rfl

/-- C3, evaluated at the failing input: on a fresh reader, let the member
substream open raise after the container handle and the `ZipFile` context
were acquired.  `_ensure_open` propagates the error with both acquisitions
still held: the trace carries the two open events and no close event (the
container handle is closed zero times, not once), and a subsequent `close`
releases nothing because `_opened` was never set. -/
theorem c3_partial_open_leak :
    ensure_open .failMemberOpen .init []
      = (⟨true, true, false, false⟩, [Event.openFp, Event.openZf], true)
    ∧ ZipFileStream.close ⟨true, true, false, false⟩ [Event.openFp, Event.openZf]
      = (⟨true, true, false, false⟩, [Event.openFp, Event.openZf])
    ∧ List.count Event.closeFp [Event.openFp, Event.openZf] = 0 := by
  refine ⟨rfl, rfl, rfl⟩

/-- C4: a freshly constructed reader holds none of the three resources;
the first read, readline, readlines, seek, tell or iteration acquires the
container handle, the `ZipFile` context and the member substream, in that
order; a second trigger on the then-open reader acquires nothing further. -/
theorem c4_lazy_idempotent_open :
    (ZipFileStream.init.zip_fp = false ∧ ZipFileStream.init.zipfile = false
      ∧ ZipFileStream.init.stream = false ∧ ZipFileStream.init.opened = false)
    ∧ (∀ (tr : Trace) (sz : Int), ZipFileStream.read .ok .init tr sz
        = (⟨true, true, true, true⟩, tr ++ [.openFp, .openZf, .openSt], false))
    ∧ (∀ (tr : Trace) (sz : Int), ZipFileStream.readline .ok .init tr sz
        = (⟨true, true, true, true⟩, tr ++ [.openFp, .openZf, .openSt], false))
    ∧ (∀ (tr : Trace) (hint : Int), ZipFileStream.readlines .ok .init tr hint
        = (⟨true, true, true, true⟩, tr ++ [.openFp, .openZf, .openSt], false))
    ∧ (∀ (tr : Trace) (off : Int) (wh : Nat), ZipFileStream.seek .ok .init tr off wh
        = (⟨true, true, true, true⟩, tr ++ [.openFp, .openZf, .openSt], false))
    ∧ (∀ tr : Trace, ZipFileStream.tell .ok .init tr
        = (⟨true, true, true, true⟩, tr ++ [.openFp, .openZf, .openSt], false))
    ∧ (∀ tr : Trace, ZipFileStream.iterLines .ok .init tr
        = (⟨true, true, true, true⟩, tr ++ [.openFp, .openZf, .openSt], false))
    ∧ (∀ (tr tr2 : Trace) (sz sz2 : Int),
        ZipFileStream.read .ok (ZipFileStream.read .ok .init tr sz).1 tr2 sz2
          = ((ZipFileStream.read .ok .init tr sz).1, tr2, false)) :=
  ⟨⟨rfl, rfl, rfl, rfl⟩, fun _ _ => rfl, fun _ _ => rfl, fun _ _ => rfl,
   fun _ _ _ => rfl, fun _ => rfl, fun _ => rfl, fun _ _ _ _ => rfl⟩

/-- C5: `close` on an open reader releases the member substream, then the
`ZipFile` context, then the raw container handle, in that order; a second
`close`, and a `close` on a reader that was never read, release nothing
(and the model's `close` has no error outcome at all, matching the guarded
Python body, which only ever closes live objects). -/
theorem c5_close_order_and_idempotence :
    (∀ tr : Trace, ZipFileStream.close ⟨true, true, true, true⟩ tr
      = (⟨true, true, true, false⟩, tr ++ [.closeSt, .closeZf, .closeFp]))
    ∧ (∀ tr tr2 : Trace,
        ZipFileStream.close (ZipFileStream.close ⟨true, true, true, true⟩ tr).1 tr2
          = ((ZipFileStream.close ⟨true, true, true, true⟩ tr).1, tr2))
    ∧ (∀ tr : Trace, ZipFileStream.close .init tr = (.init, tr)) :=
  ⟨fun tr => by simp [ZipFileStream.close], fun _ _ => rfl, fun _ => rfl⟩

/-- C6 counterexample: open a fresh reader by reading, close it, read
again: the second read does not fail — it re-acquires all three resources
(three fresh open events after the closes) and the reader is open again,
so the claimed forward-only `unopened → open → closed` lifecycle is
violated by the code. -/
theorem c6_reopen_counterexample :
    ZipFileStream.read .ok
      (ZipFileStream.close (ZipFileStream.read .ok .init [] (-1)).1
        (ZipFileStream.read .ok .init [] (-1)).2.1).1
      (ZipFileStream.close (ZipFileStream.read .ok .init [] (-1)).1
        (ZipFileStream.read .ok .init [] (-1)).2.1).2
      (-1)
      = (⟨true, true, true, true⟩,
         [Event.openFp, Event.openZf, Event.openSt, Event.closeSt, Event.closeZf,
          Event.closeFp, Event.openFp, Event.openZf, Event.openSt], false) := by
  rfl

/-- C6 amended: the reader's lifecycle is not forward-only.  `close` resets
only the `_opened` flag, so on any closed reader (any state produced by
`close`) a subsequent successful `read` does not fail: it re-opens,
acquiring the container handle, the `ZipFile` context and the member
substream anew. -/
theorem c6_read_after_close_reopens (s : ZipFileStream) (tr tr2 : Trace) (sz : Int) :
    ZipFileStream.read .ok (ZipFileStream.close s tr).1 tr2 sz
      = ({ (ZipFileStream.close s tr).1 with
            zip_fp := true, zipfile := true, stream := true, opened := true },
         tr2 ++ [.openFp, .openZf, .openSt], false) := by
  rcases s with ⟨a, b, c, d⟩
  cases d <;> rfl

/-- C8: scoped use of the reader: entering the scope opens it (the body
always receives an open reader) and returns the reader itself; leaving the
scope closes it on normal and error exit alike — the final state is never
open — and the body's error flag is exactly the overall error flag, so an
error raised in the scope is not suppressed. -/
theorem c8_scoped_acquisition (s : ZipFileStream) (tr : Trace)
    (body : ZipFileStream → Trace → ZipFileStream × Trace × Bool) :
    ((s.enterScope .ok tr).1.opened = true)
    ∧ (withStream .ok s tr body).1.opened = false
    ∧ (withStream .ok s tr body).2.2
        = (body (s.enterScope .ok tr).1 (s.enterScope .ok tr).2.1).2.2 := by
  refine ⟨(ensure_open_ok s tr).1, ?_, ?_⟩ <;>
  · unfold withStream ZipFileStream.exitScope
    simp [ZipFileStream.enterScope, (ensure_open_ok s tr).2, close_not_opened]

/-- C9: for a present storage object with a container key and a member path
in the index, the download view streams with mimetype inferred from the
member base name (defaulting to application/octet-stream on failed
inference), an inline Content-Disposition carrying the member base name,
and Content-Length equal to the member's uncompressed size; with no
`zip_path` it delegates to the plain storage download path. -/
theorem c9_download_member (guess_type : String → Option String)
    (key : String) (sz : Nat) (entries : List ZipEntry) (p : String) (e : ZipEntry)
    (hp : p.data ≠ [])
    (hz : strEndsWith (lowerStr (basename key)) ".zip" = true)
    (hfind : entries.find? (fun x => x.path == p) = some e) :
    file_download_ui guess_type (some ⟨key, sz, .readable entries⟩) (some p)
      = .response ⟨(guess_type (basename p)).getD "application/octet-stream",
          "inline; filename=\"" ++ basename p ++ "\"", toString e.file_size⟩
    ∧ ∀ fo : FileObj, file_download_ui guess_type (some fo) none = .delegated := by
  constructor
  · simp [file_download_ui, hp, create_preview_file, PreviewFile.filename, hz,
      ZipExtractedFile.make, load_file_info, getinfo, hfind, Except.map,
      PreviewResult.filename, ZipExtractedFile.filename, PreviewResult.size,
      ZipExtractedFile.size]
  · intro fo
    rfl

/-- Witness for C9 on the spec's Scenario B data: `archive.zip` with the
500-byte entry `images/a.png`, with mime inference failing so the opaque
binary default is used; and the same request with no member path
delegates. -/
theorem c9_download_member_witness :
    file_download_ui (fun _ => none)
        (some ⟨"archive.zip", 9, .readable [⟨"images/a.png", 500, 300⟩]⟩)
        (some "images/a.png")
      = .response ⟨(none.getD "application/octet-stream"),
          "inline; filename=\"" ++ basename "images/a.png" ++ "\"", toString 500⟩
    ∧ file_download_ui (fun _ => none)
        (some ⟨"archive.zip", 9, .readable [⟨"images/a.png", 500, 300⟩]⟩) none
      = .delegated :=
  ⟨(c9_download_member (fun _ => none) "archive.zip" 9 [⟨"images/a.png", 500, 300⟩]
      "images/a.png" ⟨"images/a.png", 500, 300⟩ (by decide) (by decide) (by decide)).1,
   (c9_download_member (fun _ => none) "archive.zip" 9 [⟨"images/a.png", 500, 300⟩]
      "images/a.png" ⟨"images/a.png", 500, 300⟩ (by decide) (by decide) (by decide)).2
     ⟨"archive.zip", 9, .readable [⟨"images/a.png", 500, 300⟩]⟩⟩
